import Mathlib

/-!
# Verification of the feature-map authentication core

Shallow embedding of the token-based session lifecycle of the repository:
the JWT codec (`src/lib/auth/jwt.ts`), the password policy
(`src/lib/auth/password.ts`), the auth route handlers
(`src/app/api/auth/{login,logout,refresh,register,test-login,github/callback}/route.ts`)
and the two revisions of the route-gate middleware (`src/middleware.ts`).

External collaborators are passed as explicit parameters:
the signing secret and the current clock (ambient in the source),
the user store (Prisma, modelled as lookup/creation functions),
bcrypt (an abstract compare/hash function), and the two
GitHub remote calls (modelled as pre-determined outcomes plus an explicit
trace of which calls were actually performed).
-/

namespace FeatureMap

/-! ## Token codec (src/lib/auth/jwt.ts and the edge copy in src/middleware.ts) -/

/-- The `type` discriminator of a token payload: `"access" | "refresh"`. -/
inductive TokenType where
  | access
  | refresh
deriving DecidableEq, Repr

/-- The JWT claims carried by every session token:
`{ userId, type, iat, exp }` (timestamps in seconds since epoch). -/
structure TokenPayload where
  userId : String
  type : TokenType
  iat : Nat
  exp : Nat
deriving DecidableEq, Repr

/-- A cookie / wire value that may hold a token.
`signed p secret` is a structurally well-formed JWT over payload `p` whose
signature segment was produced with the shared secret `secret` (HMAC is
treated as unforgeable: a signature verifies against exactly the secret
that produced it).  `other s` is any other string (malformed, garbage,
or the empty string). -/
inductive Tok where
  | signed (payload : TokenPayload) (secret : String)
  | other (s : String)
deriving DecidableEq, Repr

/-- JS truthiness of the cookie string: `!token` is true exactly for `""`
among present values.  A well-formed JWT is never the empty string. -/
def Tok.isEmptyStr : Tok → Bool
  | .other s => s = ""
  | .signed _ _ => false

/-- Failure modes of `jwt.verify` as used in `verifyToken`:
the explicit `Token is required` throw for an empty string, a
`JsonWebTokenError` for a bad signature / malformed string, and a
`TokenExpiredError` once `exp` has passed. -/
inductive VerifyError where
  | required
  | invalid
  | expired
deriving DecidableEq, Repr

/-- Source `generateAccessToken` (src/lib/auth/jwt.ts):
`jwt.sign({ userId, type: "access" }, JWT_SECRET, { expiresIn: "15m" })`. -/
def generateAccessToken (secret : String) (now : Nat) (userId : String) : Tok :=
  .signed { userId := userId, type := .access, iat := now, exp := now + 15 * 60 } secret

/-- Source `generateRefreshToken` (src/lib/auth/jwt.ts):
`jwt.sign({ userId, type: "refresh" }, JWT_SECRET, { expiresIn: "7d" })`. -/
def generateRefreshToken (secret : String) (now : Nat) (userId : String) : Tok :=
  .signed { userId := userId, type := .refresh, iat := now, exp := now + 7 * 24 * 60 * 60 } secret

/-- Source `verifyToken` (src/lib/auth/jwt.ts): throws on the empty string
(`Token is required`), otherwise `jwt.verify(token, JWT_SECRET)`, which
rejects a signature not produced with `JWT_SECRET` and a token whose
`exp` is not in the future. -/
def verifyToken (secret : String) (now : Nat) : Tok → Except VerifyError TokenPayload
  | .signed p s =>
      if s ≠ secret then .error .invalid
      else if p.exp ≤ now then .error .expired
      else .ok p
  | .other s => if s = "" then .error .required else .error .invalid

/-- Source `verifyTokenEdge` (edge revision of src/middleware.ts): `jose.jwtVerify`
with the same secret; signature and `exp` are checked, any other string
fails as malformed. -/
def verifyTokenEdge (secret : String) (now : Nat) : Tok → Except VerifyError TokenPayload
  | .signed p s =>
      if s ≠ secret then .error .invalid
      else if p.exp ≤ now then .error .expired
      else .ok p
  | .other _ => .error .invalid

/-- Source `generateAccessTokenEdge` (edge revision of src/middleware.ts):
`new SignJWT({ userId, type: "access" }).setIssuedAt().setExpirationTime("15m")`. -/
def generateAccessTokenEdge (secret : String) (now : Nat) (userId : String) : Tok :=
  .signed { userId := userId, type := .access, iat := now, exp := now + 15 * 60 } secret

/-! ## HTTP response / request model -/

/-- One `Set-Cookie` header as emitted by the handlers.  Every session
cookie in the source carries `Path=/; SameSite=Lax`; the distinguishing
attributes are the name, the value (`none` models the empty value of an
expiring cookie), the presence of `HttpOnly`, and an `Expires` timestamp
in seconds since epoch (`some 0` is `Thu, 01 Jan 1970 00:00:00 GMT`). -/
structure SetCookie where
  name : String
  value : Option Tok
  httpOnly : Bool
  expires : Option Nat
deriving DecidableEq, Repr

/-- A value of a field of a JSON response body. -/
inductive BodyVal where
  | text (s : String)
  | tok (t : Tok)
  | userObj (id : String) (email : String) (name : Option String)
deriving DecidableEq, Repr

/-- An HTTP response as produced by the handlers: status, an optional
redirect target (`Location`), the JSON body fields (empty for redirects),
and the `Set-Cookie` headers in order. -/
structure ApiResponse where
  status : Nat
  redirectTo : Option String
  body : List (String × BodyVal)
  cookies : List SetCookie
deriving DecidableEq, Repr

/-- A 4xx/5xx JSON response `{ error: msg }` with no cookies. -/
def errResponse (status : Nat) (msg : String) : ApiResponse :=
  { status := status, redirectTo := none, body := [("error", .text msg)], cookies := [] }

/-- The two cookies a request can present to the auth core
(`request.cookies.get("access_token" | "refresh_token")?.value`). -/
structure RequestCookies where
  access_token : Option Tok
  refresh_token : Option Tok
deriving DecidableEq, Repr

/-- A record of the external user store (Prisma `User`), restricted to the
fields the auth core reads. `passwordHash = none` is an OAuth-only account. -/
structure User where
  id : String
  email : String
  name : Option String
  passwordHash : Option String
deriving DecidableEq, Repr

/-- A parsed request body for the JSON POST endpoints.  `emptyText` is a
missing/whitespace-only body, `badJson` a body `JSON.parse` rejects, and
`fields` carries the string-typed fields the handlers extract (a field
that is absent or not a string is `none`, matching the
`typeof x === "string" ? x : undefined` guards). -/
inductive ParsedBody where
  | emptyText
  | badJson
  | fields (email : Option String) (password : Option String)
      (name : Option String) (userId : Option String)
deriving DecidableEq, Repr

/-! ## Password policy (src/lib/auth/password.ts) -/

/-- Result record `PasswordValidationResult \x7b valid, errors \x7d`. -/
structure PasswordValidationResult where
  valid : Bool
  errors : List String
deriving DecidableEq, Repr

/-- Test `/[A-Z]/.test(password)` — an ASCII uppercase letter occurs
(character-level operations work on `String.data` so that they evaluate). -/
def hasUpperAscii (s : String) : Bool :=
  s.data.any fun c => 'A' ≤ c && c ≤ 'Z'

/-- Test `/[a-z]/.test(password)` — an ASCII lowercase letter occurs. -/
def hasLowerAscii (s : String) : Bool :=
  s.data.any fun c => 'a' ≤ c && c ≤ 'z'

/-- Test `/[0-9]/.test(password)` — an ASCII digit occurs. -/
def hasDigitAscii (s : String) : Bool :=
  s.data.any fun c => '0' ≤ c && c ≤ '9'

/-- Predicate for `s.trim() === ""` in JS terms (also true for the empty string):
every character is whitespace. -/
def isBlank (s : String) : Bool :=
  s.data.all Char.isWhitespace

def lengthMsg : String := "비밀번호는 8자 이상이어야 합니다."
def upperMsg : String := "비밀번호는 대문자(uppercase)를 포함해야 합니다."
def lowerMsg : String := "비밀번호는 소문자(lowercase)를 포함해야 합니다."
def digitMsg : String := "비밀번호는 숫자(digit)를 포함해야 합니다."

/-- Source `validatePassword` (src/lib/auth/password.ts): pushes one message per
violated rule, in source order, and is valid iff no message was pushed. -/
def validatePassword (password : String) : PasswordValidationResult :=
  let errors :=
    (if password.length < 8 then [lengthMsg] else []) ++
    (if hasUpperAscii password then [] else [upperMsg]) ++
    (if hasLowerAscii password then [] else [lowerMsg]) ++
    (if hasDigitAscii password then [] else [digitMsg])
  { valid := errors.isEmpty, errors := errors }

/-! ## POST /api/auth/refresh (src/app/api/auth/refresh/route.ts) -/

/-- The refresh handler. `store` is `prisma.user.findUnique({ where: { id } })`. -/
def refreshPOST (secret : String) (now : Nat) (store : String → Option User)
    (req : RequestCookies) : ApiResponse :=
  match req.refresh_token with
  | none => errResponse 401 "refresh_token이 없습니다"
  | some rt =>
    if rt.isEmptyStr then errResponse 401 "refresh_token이 없습니다"
    else
      match verifyToken secret now rt with
      | .error _ => errResponse 401 "유효하지 않은 토큰입니다"
      | .ok payload =>
        if payload.type ≠ .refresh then errResponse 401 "올바른 토큰 타입이 아닙니다"
        else
          match store payload.userId with
          | none => errResponse 401 "유저를 찾을 수 없습니다"
          | some _ =>
            let newAccessToken := generateAccessToken secret now payload.userId
            { status := 200
              redirectTo := none
              body := [("accessToken", .tok newAccessToken)]
              cookies := [{ name := "access_token", value := some newAccessToken,
                            httpOnly := false, expires := none }] }

/-! ## POST /api/auth/login (src/app/api/auth/login/route.ts, first revision) -/

/-- The password-login handler. `findByEmail` is
`prisma.user.findUnique({ where: { email } })` and `bcryptCompare` is
`bcrypt.compare(password, user.passwordHash)`. -/
def loginPOST (secret : String) (now : Nat) (findByEmail : String → Option User)
    (bcryptCompare : String → String → Bool) (body : ParsedBody) : ApiResponse :=
  match body with
  | .emptyText => errResponse 400 "요청 본문이 비어 있습니다"
  | .badJson => errResponse 400 "올바른 JSON 형식이 아닙니다"
  | .fields emailField passwordField _ _ =>
    match emailField with
    | none => errResponse 400 "이메일은 필수입니다"
    | some email =>
      if email = "" then errResponse 400 "이메일은 필수입니다"
      else
        match passwordField with
        | none => errResponse 400 "비밀번호는 필수입니다"
        | some password =>
          if password = "" then errResponse 400 "비밀번호는 필수입니다"
          else
            match findByEmail email with
            | none => errResponse 401 "이메일 또는 비밀번호가 올바르지 않습니다"
            | some user =>
              match user.passwordHash with
              | none => errResponse 401 "이 계정은 소셜 로그인으로만 접근할 수 있습니다"
              | some hash =>
                if !bcryptCompare password hash then
                  errResponse 401 "이메일 또는 비밀번호가 올바르지 않습니다"
                else
                  let accessToken := generateAccessToken secret now user.id
                  let refreshToken := generateRefreshToken secret now user.id
                  { status := 200
                    redirectTo := none
                    body := [("user", .userObj user.id user.email user.name),
                             ("accessToken", .tok accessToken)]
                    cookies := [{ name := "access_token", value := some accessToken,
                                  httpOnly := false, expires := none },
                                { name := "refresh_token", value := some refreshToken,
                                  httpOnly := true, expires := none }] }

/-! ## POST /api/auth/logout (src/app/api/auth/logout/route.ts) -/

/-- The logout handler.  The second component records the side effect on
the store: the id whose `refreshToken` column was nulled (none when no
valid refresh cookie was presented — the DB update is skipped).  The
response itself never depends on the cookies: always 200 with both
session cookies expired at the epoch. -/
def logoutPOST (secret : String) (now : Nat) (req : RequestCookies) :
    ApiResponse × Option String :=
  let clearedUserId : Option String :=
    match req.refresh_token with
    | none => none
    | some rt =>
      if rt.isEmptyStr then none
      else
        match verifyToken secret now rt with
        | .ok payload => some payload.userId
        | .error _ => none
  ({ status := 200
     redirectTo := none
     body := [("message", .text "로그아웃되었습니다")]
     cookies := [{ name := "access_token", value := none,
                   httpOnly := false, expires := some 0 },
                 { name := "refresh_token", value := none,
                   httpOnly := true, expires := some 0 }] },
   clearedUserId)

/-! ## POST register (second revision inside src/app/api/auth/test-login/route.ts) -/

/-- Regex `EMAIL_REGEX = /^[^\s@]+@[^\s@]+\.[^\s@]+$/`: the string splits as
`A@R` with `A` nonempty, no whitespace or further `@` anywhere, and `R`
containing a `.` that is neither its first nor its last character
(the two `[^\s@]+` groups around the dot may themselves contain dots).
`splitOnChar` is the structural split used to locate the single `@`. -/
def splitOnChar (sep : Char) : List Char → List (List Char)
  | [] => [[]]
  | c :: cs =>
    match splitOnChar sep cs with
    | [] => [[]]
    | r :: rs => if c = sep then [] :: r :: rs else (c :: r) :: rs

def emailRegexTest (s : String) : Bool :=
  s.data.all (fun c => !c.isWhitespace) &&
  match splitOnChar '@' s.data with
  | [a, r] => !a.isEmpty && ((r.drop 1).dropLast.contains '.')
  | _ => false

/-- Helper `validateEmail` of the register handler. -/
def regValidateEmail (email : String) : Option String :=
  if email = "" || isBlank email then some "이메일은 필수입니다"
  else if !emailRegexTest email then some "올바른 이메일 형식이 아닙니다"
  else none

/-- The inline `validatePassword` of the register handler (first failure
only, unlike the library `validatePassword`). -/
def regValidatePassword (password : String) : Option String :=
  if password = "" || isBlank password then some "비밀번호는 필수입니다"
  else if password.length < 8 then some "비밀번호는 8자 이상이어야 합니다"
  else if !hasUpperAscii password then some "비밀번호에 대문자가 포함되어야 합니다"
  else if !hasLowerAscii password then some "비밀번호에 소문자가 포함되어야 합니다"
  else if !hasDigitAscii password then some "비밀번호에 숫자가 포함되어야 합니다"
  else none

/-- The register handler. `bcryptHash` is `bcrypt.hash(password, 10)`;
`createUser email hash nameField` is `prisma.user.create`. -/
def registerPOST (secret : String) (now : Nat) (findByEmail : String → Option User)
    (bcryptHash : String → String)
    (createUser : String → String → Option String → User)
    (body : ParsedBody) : ApiResponse :=
  match body with
  | .emptyText => errResponse 400 "요청 본문이 비어 있습니다"
  | .badJson => errResponse 400 "올바른 JSON 형식이 아닙니다"
  | .fields emailField passwordField nameField _ =>
    match emailField with
    | none => errResponse 400 "이메일은 필수입니다"
    | some email =>
      match regValidateEmail email with
      | some msg => errResponse 400 msg
      | none =>
        match passwordField with
        | none => errResponse 400 "비밀번호는 필수입니다"
        | some password =>
          match regValidatePassword password with
          | some msg => errResponse 400 msg
          | none =>
            match findByEmail email with
            | some _ => errResponse 409 "이미 사용 중인 이메일입니다"
            | none =>
              let user := createUser email (bcryptHash password) nameField
              let accessToken := generateAccessToken secret now user.id
              let refreshToken := generateRefreshToken secret now user.id
              { status := 201
                redirectTo := none
                body := [("user", .userObj user.id user.email user.name),
                         ("accessToken", .tok accessToken)]
                cookies := [{ name := "refresh_token", value := some refreshToken,
                              httpOnly := true, expires := none }] }

/-! ## POST /api/auth/test-login (src/app/api/auth/test-login/route.ts, first revision) -/

/-- The test-login handler. `isProduction` is `process.env.NODE_ENV === "production"`. -/
def testLoginPOST (secret : String) (now : Nat) (isProduction : Bool)
    (body : ParsedBody) : ApiResponse :=
  if isProduction then
    errResponse 404 "이 엔드포인트는 프로덕션 환경에서 사용할 수 없습니다"
  else
    match body with
    | .emptyText => errResponse 400 "요청 본문이 비어 있습니다"
    | .badJson => errResponse 400 "올바른 JSON 형식이 아닙니다"
    | .fields _ _ _ userIdField =>
      match userIdField with
      | none => errResponse 400 "userId는 필수 문자열 값입니다"
      | some userId =>
        if userId = "" then errResponse 400 "userId는 필수 문자열 값입니다"
        else
          let accessToken := generateAccessToken secret now userId
          let refreshToken := generateRefreshToken secret now userId
          { status := 200
            redirectTo := none
            body := [("accessToken", .tok accessToken)]
            cookies := [{ name := "access_token", value := some accessToken,
                          httpOnly := false, expires := none },
                        { name := "refresh_token", value := some refreshToken,
                          httpOnly := true, expires := none }] }

/-! ## GitHub OAuth callbacks -/

/-- The pre-determined outcome of the token-exchange remote call, were it
to be made: the fetch throws, returns a non-success status, returns
success without an `access_token` field, or returns a token string. -/
inductive ExchangeResult where
  | netError
  | httpError
  | okNoToken
  | okToken (token : String)
deriving DecidableEq, Repr

/-- GitHub profile as consumed by the callbacks. -/
structure GitHubUser where
  id : Nat
  login : String
  name : Option String
  email : Option String
  avatar_url : String
deriving DecidableEq, Repr

/-- The pre-determined outcome of the profile remote call, were it made. -/
inductive ProfileResult where
  | netError
  | httpError
  | ok (user : GitHubUser)
deriving DecidableEq, Repr

/-- Tags for the external calls a callback performs, in order. -/
inductive CallTag where
  | exchange
  | profile
  | upsert
deriving DecidableEq, Repr

/-- A 302 redirect to `path` with no body and no cookies. -/
def redirect302 (path : String) : ApiResponse :=
  { status := 302, redirectTo := some path, body := [], cookies := [] }

/-- A 307 redirect (`NextResponse.redirect` default status) to `path`. -/
def redirect307 (path : String) : ApiResponse :=
  { status := 307, redirectTo := some path, body := [], cookies := [] }

/-- The OAuth callback of src/app/api/auth/login/route.ts (second
revision, `GET`).  Returns the response together with the trace of
external calls performed. `upsert` is `prisma.user.upsert` keyed by
`githubId`. -/
def oauthLoginGET (secret : String) (now : Nat) (exchange : ExchangeResult)
    (profile : ProfileResult) (upsert : GitHubUser → User)
    (code : Option String) : ApiResponse × List CallTag :=
  match code with
  | none => (redirect302 "/login", [])
  | some c =>
    if c = "" || isBlank c then (redirect302 "/login", [])
    else
      match exchange with
      | .netError => (redirect302 "/login", [.exchange])
      | .httpError => (redirect302 "/login", [.exchange])
      | .okNoToken => (redirect302 "/login", [.exchange])
      | .okToken token =>
        if token = "" then (redirect302 "/login", [.exchange])
        else
          match profile with
          | .netError => (redirect302 "/login", [.exchange, .profile])
          | .httpError => (redirect302 "/login", [.exchange, .profile])
          | .ok ghUser =>
            let user := upsert ghUser
            let accessToken := generateAccessToken secret now user.id
            let refreshToken := generateRefreshToken secret now user.id
            ({ status := 302
               redirectTo := some "/dashboard"
               body := []
               cookies := [{ name := "access_token", value := some accessToken,
                             httpOnly := true, expires := none },
                           { name := "refresh_token", value := some refreshToken,
                             httpOnly := true, expires := none }] },
             [.exchange, .profile, .upsert])

/-- The OAuth callback of src/app/api/auth/github/callback/route.ts
(`GET`).  One try/catch wraps the whole chain; every failure redirects
with an error query parameter; `NextResponse.redirect` is used with its
default 307 status. -/
def githubCallbackGET (secret : String) (now : Nat) (exchange : ExchangeResult)
    (profile : ProfileResult) (upsert : GitHubUser → User)
    (code : Option String) : ApiResponse × List CallTag :=
  match code with
  | none => (redirect307 "/login?error=missing_code", [])
  | some c =>
    if c = "" then (redirect307 "/login?error=missing_code", [])
    else
      match exchange with
      | .netError => (redirect307 "/login?error=github_auth_failed", [.exchange])
      | .httpError => (redirect307 "/login?error=github_auth_failed", [.exchange])
      | .okNoToken => (redirect307 "/login?error=github_auth_failed", [.exchange])
      | .okToken token =>
        if token = "" then (redirect307 "/login?error=github_auth_failed", [.exchange])
        else
          match profile with
          | .netError => (redirect307 "/login?error=github_auth_failed", [.exchange, .profile])
          | .httpError => (redirect307 "/login?error=github_auth_failed", [.exchange, .profile])
          | .ok ghUser =>
            let user := upsert ghUser
            let accessToken := generateAccessToken secret now user.id
            let refreshToken := generateRefreshToken secret now user.id
            ({ status := 307
               redirectTo := some "/dashboard"
               body := []
               cookies := [{ name := "access_token", value := some accessToken,
                             httpOnly := false, expires := none },
                           { name := "refresh_token", value := some refreshToken,
                             httpOnly := true, expires := none }] },
             [.exchange, .profile, .upsert])

/-! ## Route Gate middleware (src/middleware.ts, both revisions) -/

/-- Terminal outcome of the middleware: forward the request to the
downstream handler (`NextResponse.next()`, possibly with `Set-Cookie`
headers attached), or redirect. -/
inductive MwResult where
  | next (setCookies : List SetCookie)
  | redirect (path : String) (status : Nat)
deriving DecidableEq, Repr

/-- Structural `pathname.startsWith(p)` on the underlying character lists. -/
def strStartsWith (s p : String) : Bool :=
  p.data.isPrefixOf s.data

/-- List `PUBLIC_PATHS` of the Node revision of src/middleware.ts. -/
def PUBLIC_PATHS_NODE : List String :=
  ["/", "/login", "/signup", "/api/auth/login", "/api/auth/register",
   "/api/auth/refresh", "/api/auth/logout", "/api/auth/github",
   "/api/auth/test-login", "/api/health"]

/-- Classifier `isPublicPath` of the Node revision: `/` exactly, or an exact or
sub-path match of a non-root entry. -/
def isPublicPathNode (pathname : String) : Bool :=
  if pathname = "/" then true
  else PUBLIC_PATHS_NODE.any fun p =>
    p ≠ "/" && (pathname = p || strStartsWith pathname (p ++ "/"))

/-- List `PUBLIC_PATHS` of the edge revision of src/middleware.ts. -/
def PUBLIC_PATHS_EDGE : List String := ["/", "/login", "/signup"]

/-- List `PUBLIC_PATH_PREFIXES` of the edge revision. -/
def PUBLIC_PATH_PREFIXES_EDGE : List String := ["/api/auth/", "/_next/"]

/-- Classifier `isPublicPath` of the edge revision. -/
def isPublicPathEdge (pathname : String) : Bool :=
  (PUBLIC_PATHS_EDGE.any fun p => p = pathname) ||
  PUBLIC_PATH_PREFIXES_EDGE.any fun p => strStartsWith pathname p

/-- The Node revision of `middleware` (first document of
src/middleware.ts).  On access-token verification failure it delegates to
the refresh endpoint over an internal `fetch`; `fetchFails` models that
fetch throwing (network error).  Distinctive behavior of this revision:
when the refresh token is absent, or the refresh call fails in any way,
the request is still passed through (`NextResponse.next()`), on the
stated assumption that downstream APIs re-check authentication. -/
def middlewareNode (secret : String) (now : Nat) (store : String → Option User)
    (fetchFails : Bool) (pathname : String) (req : RequestCookies) : MwResult :=
  if isPublicPathNode pathname then .next []
  else
    match req.access_token with
    | none => .redirect "/login" 307
    | some accessToken =>
      if accessToken.isEmptyStr then .redirect "/login" 307
      else
        match verifyToken secret now accessToken with
        | .ok _ => .next []
        | .error _ =>
          match req.refresh_token with
          | none => .next []
          | some refreshToken =>
            if refreshToken.isEmptyStr then .next []
            else if fetchFails then .next []
            else
              let resp := refreshPOST secret now store
                { access_token := none, refresh_token := some refreshToken }
              if resp.status ≠ 200 then .next []
              else
                match resp.body.lookup "accessToken" with
                | some (.tok newAccessToken) =>
                  .next [{ name := "access_token", value := some newAccessToken,
                           httpOnly := false, expires := none }]
                | _ =>
                  .next [{ name := "access_token", value := none,
                           httpOnly := false, expires := none }]

/-- The JS truthiness + verification funnel of the edge middleware's
access slot: the request falls through to the refresh recovery iff the
access cookie is the empty string or fails `verifyTokenEdge`. -/
def edgeAccessFails (secret : String) (now : Nat) (t : Tok) : Bool :=
  t.isEmptyStr ||
    match verifyTokenEdge secret now t with
    | .ok _ => false
    | .error _ => true

/-- The refresh-recovery arm of the edge middleware (the code below the
`refresh_token 시도` comment), as a function of the refresh cookie:
absent, empty, unverifiable or non-Refresh-kind tokens redirect to
`/login`; a Refresh-kind token mints a fresh Access token for its
subject and forwards with it as a Set-Cookie. -/
def edgeTryRefresh (secret : String) (now : Nat) : Option Tok → MwResult
  | none => .redirect "/login" 302
  | some refreshToken =>
    if refreshToken.isEmptyStr then .redirect "/login" 302
    else
      match verifyTokenEdge secret now refreshToken with
      | .error _ => .redirect "/login" 302
      | .ok payload =>
        if payload.type ≠ .refresh then .redirect "/login" 302
        else
          .next [{ name := "access_token",
                   value := some (generateAccessTokenEdge secret now payload.userId),
                   httpOnly := true, expires := none }]

/-- The edge revision of `middleware` (second document of
src/middleware.ts): self-contained jose-based verification, strict
rejection — a failed or absent refresh token always redirects to
`/login` with status 302. -/
def middlewareEdge (secret : String) (now : Nat) (pathname : String)
    (req : RequestCookies) : MwResult :=
  if isPublicPathEdge pathname then .next []
  else
    match req.access_token with
    | none => edgeTryRefresh secret now req.refresh_token
    | some accessToken =>
      if accessToken.isEmptyStr then edgeTryRefresh secret now req.refresh_token
      else
        match verifyTokenEdge secret now accessToken with
        | .ok _ => .next []
        | .error _ => edgeTryRefresh secret now req.refresh_token

/-! ## Theorems -/

/-- Holds when the `Expires` attribute is present and strictly before the time `t`. -/
def SetCookie.expiresBefore (c : SetCookie) (t : Nat) : Prop :=
  ∃ e, c.expires = some e ∧ e < t

/-- C8: verifying a token freshly minted by `generateAccessToken` for subject S
succeeds and yields `userId = S` and `type = access`; a token freshly minted by
`generateRefreshToken` verifies to `userId = S` and `type = refresh`. -/
theorem C8_mint_then_verify_roundtrip (secret S : String) (now : Nat) :
    verifyToken secret now (generateAccessToken secret now S)
      = .ok { userId := S, type := .access, iat := now, exp := now + 15 * 60 }
  ∧ verifyToken secret now (generateRefreshToken secret now S)
      = .ok { userId := S, type := .refresh, iat := now, exp := now + 7 * 24 * 60 * 60 } := by
  constructor <;> simp [verifyToken, generateAccessToken, generateRefreshToken]

/-- C6: `validatePassword` reports every violated rule — the length message is
present iff the password is shorter than 8, and each missing-character-class
message is present iff that class is absent — with `valid` true exactly when
the error list is empty; `"short"` accumulates the length, uppercase and digit
messages simultaneously, and `"Password1"` is valid with an empty list. -/
theorem C6_validatePassword_collects_all_rules :
    (∀ p : String,
      ((validatePassword p).valid = true ↔ (validatePassword p).errors = [])
      ∧ (lengthMsg ∈ (validatePassword p).errors ↔ p.length < 8)
      ∧ (upperMsg ∈ (validatePassword p).errors ↔ hasUpperAscii p = false)
      ∧ (lowerMsg ∈ (validatePassword p).errors ↔ hasLowerAscii p = false)
      ∧ (digitMsg ∈ (validatePassword p).errors ↔ hasDigitAscii p = false))
    ∧ ((validatePassword "short").valid = false
       ∧ lengthMsg ∈ (validatePassword "short").errors
       ∧ upperMsg ∈ (validatePassword "short").errors
       ∧ digitMsg ∈ (validatePassword "short").errors)
    ∧ validatePassword "Password1" = { valid := true, errors := [] } := by
  refine ⟨fun p => ?_, by decide, by decide⟩
  by_cases h1 : p.length < 8 <;>
  by_cases h2 : hasUpperAscii p = true <;>
  by_cases h3 : hasLowerAscii p = true <;>
  by_cases h4 : hasDigitAscii p = true <;>
  simp [validatePassword, h1, h2, h3, h4, lengthMsg, upperMsg, lowerMsg, digitMsg]

/-- C7: logout always returns 200 and emits exactly two expiring Set-Cookie
headers, one for `access_token` and one for `refresh_token`, each with the
epoch (a date in the past of any positive present time) as `Expires` —
independently of which cookies the request presents. -/
theorem C7_logout_idempotent_two_expiring_cookies (secret : String) (now : Nat)
    (req : RequestCookies) :
    (logoutPOST secret now req).1.status = 200
  ∧ (logoutPOST secret now req).1.cookies.map SetCookie.name
      = ["access_token", "refresh_token"]
  ∧ ∀ t : Nat, 0 < t →
      ∀ c ∈ (logoutPOST secret now req).1.cookies, SetCookie.expiresBefore c t := by
  refine ⟨rfl, rfl, ?_⟩
  intro t ht c hc
  simp only [logoutPOST, List.mem_cons, List.not_mem_nil, or_false] at hc
  rcases hc with h | h <;> subst h <;> exact ⟨0, rfl, ht⟩

/-- Witness for C7 at a concrete request and time. -/
theorem C7_logout_witness :
    (logoutPOST "s" 5 { access_token := none, refresh_token := none }).1.status = 200
  ∧ (logoutPOST "s" 5 { access_token := none, refresh_token := none }).1.cookies.map
      SetCookie.name = ["access_token", "refresh_token"]
  ∧ ∀ c ∈ (logoutPOST "s" 5 { access_token := none, refresh_token := none }).1.cookies,
      SetCookie.expiresBefore c 1 :=
  have h := C7_logout_idempotent_two_expiring_cookies "s" 5
    { access_token := none, refresh_token := none }
  ⟨h.1, h.2.1, h.2.2 1 (by decide)⟩

/-- C10: a refresh request presenting a signature-valid, unexpired
Refresh-kind token for a subject absent from the user store is answered
401 (`유저를 찾을 수 없습니다`) with no Set-Cookie attached. -/
theorem C10_refresh_unknown_user_rejected (secret S : String) (now iat exp : Nat)
    (store : String → Option User) (acc : Option Tok)
    (hexp : now < exp) (hstore : store S = none) :
    refreshPOST secret now store
      { access_token := acc,
        refresh_token :=
          some (.signed { userId := S, type := .refresh, iat := iat, exp := exp } secret) }
      = errResponse 401 "유저를 찾을 수 없습니다"
  ∧ (refreshPOST secret now store
      { access_token := acc,
        refresh_token :=
          some (.signed { userId := S, type := .refresh, iat := iat, exp := exp } secret) }).cookies
      = [] := by
  have hle : ¬ (exp ≤ now) := by omega
  constructor <;>
    simp [refreshPOST, verifyToken, Tok.isEmptyStr, hle, hstore, errResponse]

/-- Witness for C10 at concrete inputs. -/
theorem C10_refresh_unknown_user_witness :
    refreshPOST "s" 0 (fun _ => none)
      { access_token := none,
        refresh_token :=
          some (.signed { userId := "u", type := .refresh, iat := 0, exp := 1 } "s") }
      = errResponse 401 "유저를 찾을 수 없습니다"
  ∧ (refreshPOST "s" 0 (fun _ => none)
      { access_token := none,
        refresh_token :=
          some (.signed { userId := "u", type := .refresh, iat := 0, exp := 1 } "s") }).cookies
      = [] :=
  C10_refresh_unknown_user_rejected "s" "u" 0 0 1 (fun _ => none) none (by decide) rfl

/-- C1 (divergence record): on a protected path with an unverifiable
`access_token` cookie and no `refresh_token` cookie, the Node revision of
the middleware forwards the request downstream (`NextResponse.next()`),
while the edge revision — whose behavior the repository's middleware tests
and the spec's canonical rule pin — redirects to `/login`. -/
theorem C1_invalid_access_no_refresh_node_forwards_edge_rejects :
    middlewareNode "secret" 100 (fun _ => none) false "/dashboard"
      { access_token := some (.other "bogus"), refresh_token := none } = .next []
  ∧ middlewareEdge "secret" 100 "/dashboard"
      { access_token := some (.other "bogus"), refresh_token := none }
      = .redirect "/login" 302 := by
  constructor <;> rfl

/-- C2: a signature-valid, unexpired token of kind Access presented in the
Refresh slot is rejected on both paths — the edge Route Gate redirects to
`/login` (302, no cookie attached), and the refresh endpoint answers 401
(`올바른 토큰 타입이 아닙니다`) with no Set-Cookie; no new Access token is
minted in either case. -/
theorem middlewareEdge_protected_access_fails
    (secret path : String) (now : Nat) (acc rt : Option Tok)
    (hpub : isPublicPathEdge path = false)
    (hacc : ∀ t, acc = some t → edgeAccessFails secret now t = true) :
    middlewareEdge secret now path { access_token := acc, refresh_token := rt }
      = edgeTryRefresh secret now rt := by
  unfold middlewareEdge
  rcases acc with _ | t
  · simp [hpub]
  · have h := hacc t rfl
    unfold edgeAccessFails at h
    by_cases hemp : t.isEmptyStr = true
    · simp [hpub, hemp]
    · simp only [Bool.or_eq_true, hemp, false_or] at h
      rcases hv : verifyTokenEdge secret now t with e | p
      · simp [hpub, hemp, hv]
      · rw [hv] at h
        simp at h

theorem C2_access_token_in_refresh_slot_rejected
    (secret path S : String) (now iat exp : Nat) (acc : Option Tok)
    (store : String → Option User)
    (hpub : isPublicPathEdge path = false)
    (hacc : ∀ t, acc = some t → edgeAccessFails secret now t = true)
    (hexp : now < exp) :
    middlewareEdge secret now path
      { access_token := acc,
        refresh_token :=
          some (.signed { userId := S, type := .access, iat := iat, exp := exp } secret) }
      = .redirect "/login" 302
  ∧ refreshPOST secret now store
      { access_token := acc,
        refresh_token :=
          some (.signed { userId := S, type := .access, iat := iat, exp := exp } secret) }
      = errResponse 401 "올바른 토큰 타입이 아닙니다" := by
  have hle : ¬ (exp ≤ now) := by omega
  refine ⟨?_, ?_⟩
  · rw [middlewareEdge_protected_access_fails secret path now acc _ hpub hacc]
    simp [edgeTryRefresh, Tok.isEmptyStr, verifyTokenEdge, hle]
  · simp [refreshPOST, Tok.isEmptyStr, verifyToken, hle, errResponse]

/-- Witness for C2 at a concrete request: protected path `/dashboard`,
no access cookie, an Access-kind token in the refresh slot. -/
theorem C2_access_token_in_refresh_slot_witness :
    middlewareEdge "s" 0 "/dashboard"
      { access_token := none,
        refresh_token :=
          some (.signed { userId := "u", type := .access, iat := 0, exp := 1 } "s") }
      = .redirect "/login" 302
  ∧ refreshPOST "s" 0 (fun _ => none)
      { access_token := none,
        refresh_token :=
          some (.signed { userId := "u", type := .access, iat := 0, exp := 1 } "s") }
      = errResponse 401 "올바른 토큰 타입이 아닙니다" :=
  C2_access_token_in_refresh_slot_rejected "s" "/dashboard" "u" 0 0 1 none
    (fun _ => none) (by decide) (fun t h => nomatch h) (by decide)

/-- C3: on a protected path, an access cookie that fails verification
together with a signature-valid unexpired Refresh-kind cookie for subject
S makes the edge Route Gate forward the request with a Set-Cookie holding
a freshly minted Access token for the same subject S; the new token
verifies as an Access token for S and differs from the presented access
cookie value. -/
theorem C3_failed_access_valid_refresh_allows_with_fresh_cookie
    (secret path S : String) (now iat exp : Nat) (aTok : Tok)
    (hpub : isPublicPathEdge path = false)
    (hfail : edgeAccessFails secret now aTok = true)
    (hexp : now < exp) :
    middlewareEdge secret now path
      { access_token := some aTok,
        refresh_token :=
          some (.signed { userId := S, type := .refresh, iat := iat, exp := exp } secret) }
      = .next [{ name := "access_token",
                 value := some (generateAccessTokenEdge secret now S),
                 httpOnly := true, expires := none }]
  ∧ verifyTokenEdge secret now (generateAccessTokenEdge secret now S)
      = .ok { userId := S, type := .access, iat := now, exp := now + 15 * 60 }
  ∧ generateAccessTokenEdge secret now S ≠ aTok := by
  have hle : ¬ (exp ≤ now) := by omega
  have hver : verifyTokenEdge secret now (generateAccessTokenEdge secret now S)
      = .ok { userId := S, type := .access, iat := now, exp := now + 15 * 60 } := by
    simp [verifyTokenEdge, generateAccessTokenEdge]
  refine ⟨?_, hver, ?_⟩
  · rw [middlewareEdge_protected_access_fails secret path now (some aTok) _ hpub
        (fun t ht => by cases ht; exact hfail)]
    simp [edgeTryRefresh, Tok.isEmptyStr, verifyTokenEdge, hle]
  · intro hEq
    rw [← hEq] at hfail
    simp [edgeAccessFails, Tok.isEmptyStr, generateAccessTokenEdge, verifyTokenEdge] at hfail

/-- Witness for C3: unverifiable access cookie `"expired"` plus a valid
refresh cookie for subject `"u"` on `/dashboard`. -/
theorem C3_failed_access_valid_refresh_witness :
    middlewareEdge "s" 0 "/dashboard"
      { access_token := some (.other "expired"),
        refresh_token :=
          some (.signed { userId := "u", type := .refresh, iat := 0, exp := 1 } "s") }
      = .next [{ name := "access_token",
                 value := some (generateAccessTokenEdge "s" 0 "u"),
                 httpOnly := true, expires := none }]
  ∧ verifyTokenEdge "s" 0 (generateAccessTokenEdge "s" 0 "u")
      = .ok { userId := "u", type := .access, iat := 0, exp := 0 + 15 * 60 }
  ∧ generateAccessTokenEdge "s" 0 "u" ≠ .other "expired" :=
  C3_failed_access_valid_refresh_allows_with_fresh_cookie "s" "/dashboard" "u" 0 0 1
    (.other "expired") (by decide) (by decide) (by decide)

/-- An OAuth-only account (no password hash) in the store. -/
def oauthOnlyUser : User :=
  { id := "u1", email := "alice@example.com", name := none, passwordHash := none }

/-- A password account in the store. -/
def pwUser : User :=
  { id := "u2", email := "bob@example.com", name := none, passwordHash := some "h" }

/-- Store with one OAuth-only and one password account. -/
def c4store : String → Option User := fun e =>
  if e = "alice@example.com" then some oauthOnlyUser
  else if e = "bob@example.com" then some pwUser
  else none

/-- C4 counterexample: all three login-failure causes do return 401, but the
OAuth-only (null password hash) case carries a different body message
(`이 계정은 소셜 로그인으로만 접근할 수 있습니다`) than the wrong-password and
no-such-account cases, so the three causes are not all indistinguishable. -/
theorem C4_counterexample_oauth_only_message_differs :
    (loginPOST "s" 0 c4store (fun _ _ => false)
        (.fields (some "alice@example.com") (some "Password1") none none)).status = 401
  ∧ (loginPOST "s" 0 c4store (fun _ _ => false)
        (.fields (some "bob@example.com") (some "Password1") none none)).status = 401
  ∧ (loginPOST "s" 0 c4store (fun _ _ => false)
        (.fields (some "carol@example.com") (some "Password1") none none)).status = 401
  ∧ (loginPOST "s" 0 c4store (fun _ _ => false)
        (.fields (some "alice@example.com") (some "Password1") none none)).body
      ≠ (loginPOST "s" 0 c4store (fun _ _ => false)
        (.fields (some "bob@example.com") (some "Password1") none none)).body := by
  refine ⟨?_, ?_, ?_, ?_⟩ <;> decide

/-- C4 (amended): login failure responses are identical 401s for
no-such-account and wrong-password (account-enumeration safe between those
two), while an OAuth-only account (null password hash) also gets a 401 but
with a distinct message, making that cause distinguishable. -/
theorem C4_amended_login_failure_responses (secret : String) (now : Nat)
    (findByEmail : String → Option User) (cmp : String → String → Bool)
    (email password : String) (hemail : email ≠ "") (hpw : password ≠ "") :
    (findByEmail email = none →
      loginPOST secret now findByEmail cmp (.fields (some email) (some password) none none)
        = errResponse 401 "이메일 또는 비밀번호가 올바르지 않습니다")
  ∧ (∀ u h, findByEmail email = some u → u.passwordHash = some h →
      cmp password h = false →
      loginPOST secret now findByEmail cmp (.fields (some email) (some password) none none)
        = errResponse 401 "이메일 또는 비밀번호가 올바르지 않습니다")
  ∧ (∀ u, findByEmail email = some u → u.passwordHash = none →
      loginPOST secret now findByEmail cmp (.fields (some email) (some password) none none)
        = errResponse 401 "이 계정은 소셜 로그인으로만 접근할 수 있습니다") := by
  refine ⟨?_, ?_, ?_⟩
  · intro hfind
    simp [loginPOST, hemail, hpw, hfind]
  · intro u h hfind hhash hcmp
    simp [loginPOST, hemail, hpw, hfind, hhash, hcmp]
  · intro u hfind hhash
    simp [loginPOST, hemail, hpw, hfind, hhash]

/-- Witness for C4 (amended) at the three concrete accounts of `c4store`. -/
theorem C4_amended_login_failure_witness :
    loginPOST "s" 0 c4store (fun _ _ => false)
      (.fields (some "carol@example.com") (some "Password1") none none)
      = errResponse 401 "이메일 또는 비밀번호가 올바르지 않습니다"
  ∧ loginPOST "s" 0 c4store (fun _ _ => false)
      (.fields (some "bob@example.com") (some "Password1") none none)
      = errResponse 401 "이메일 또는 비밀번호가 올바르지 않습니다"
  ∧ loginPOST "s" 0 c4store (fun _ _ => false)
      (.fields (some "alice@example.com") (some "Password1") none none)
      = errResponse 401 "이 계정은 소셜 로그인으로만 접근할 수 있습니다" :=
  ⟨(C4_amended_login_failure_responses "s" 0 c4store (fun _ _ => false)
      "carol@example.com" "Password1" (by decide) (by decide)).1 (by decide),
   (C4_amended_login_failure_responses "s" 0 c4store (fun _ _ => false)
      "bob@example.com" "Password1" (by decide) (by decide)).2.1 pwUser "h"
      (by decide) (by decide) rfl,
   (C4_amended_login_failure_responses "s" 0 c4store (fun _ _ => false)
      "alice@example.com" "Password1" (by decide) (by decide)).2.2 oauthOnlyUser
      (by decide) (by decide)⟩

/-- Invariant of C5 on a response: any `refresh_token` Set-Cookie carries
HttpOnly, and its token value appears in no field of the JSON body. -/
def refreshCookieInvariant (r : ApiResponse) : Prop :=
  ∀ c ∈ r.cookies, c.name = "refresh_token" →
    c.httpOnly = true ∧ ∀ kv ∈ r.body, ∀ t, c.value = some t → kv.2 ≠ BodyVal.tok t

theorem loginPOST_refresh_cookie_invariant (secret : String) (now : Nat)
    (f : String → Option User) (cmp : String → String → Bool) (b : ParsedBody) :
    refreshCookieInvariant (loginPOST secret now f cmp b) := by
  unfold loginPOST
  repeat' split
  all_goals
    simp [refreshCookieInvariant, errResponse, generateAccessToken, generateRefreshToken]

theorem registerPOST_refresh_cookie_invariant (secret : String) (now : Nat)
    (f : String → Option User) (hash : String → String)
    (create : String → String → Option String → User) (b : ParsedBody) :
    refreshCookieInvariant (registerPOST secret now f hash create b) := by
  unfold registerPOST
  repeat' split
  all_goals
    simp [refreshCookieInvariant, errResponse, generateAccessToken, generateRefreshToken]

theorem testLoginPOST_refresh_cookie_invariant (secret : String) (now : Nat)
    (isProduction : Bool) (b : ParsedBody) :
    refreshCookieInvariant (testLoginPOST secret now isProduction b) := by
  unfold testLoginPOST
  repeat' split
  all_goals
    simp [refreshCookieInvariant, errResponse, generateAccessToken, generateRefreshToken]

theorem oauthLoginGET_refresh_cookie_invariant (secret : String) (now : Nat)
    (ex : ExchangeResult) (pr : ProfileResult) (up : GitHubUser → User)
    (code : Option String) :
    refreshCookieInvariant (oauthLoginGET secret now ex pr up code).1 := by
  unfold oauthLoginGET
  repeat' split
  all_goals
    simp [refreshCookieInvariant, redirect302, generateAccessToken, generateRefreshToken]

theorem githubCallbackGET_refresh_cookie_invariant (secret : String) (now : Nat)
    (ex : ExchangeResult) (pr : ProfileResult) (up : GitHubUser → User)
    (code : Option String) :
    refreshCookieInvariant (githubCallbackGET secret now ex pr up code).1 := by
  unfold githubCallbackGET
  repeat' split
  all_goals
    simp [refreshCookieInvariant, redirect307, generateAccessToken, generateRefreshToken]

/-- C5: every Refresh-token-issuing endpoint (password login, register,
test-login, and both OAuth callback revisions) sets the Refresh token only
as an HttpOnly cookie; the token never appears in the JSON response body. -/
theorem C5_refresh_token_only_httponly_cookie (secret : String) (now : Nat)
    (f : String → Option User) (cmp : String → String → Bool)
    (hash : String → String) (create : String → String → Option String → User)
    (isProduction : Bool) (ex : ExchangeResult) (pr : ProfileResult)
    (up : GitHubUser → User) (b : ParsedBody) (code : Option String) :
    refreshCookieInvariant (loginPOST secret now f cmp b)
  ∧ refreshCookieInvariant (registerPOST secret now f hash create b)
  ∧ refreshCookieInvariant (testLoginPOST secret now isProduction b)
  ∧ refreshCookieInvariant (oauthLoginGET secret now ex pr up code).1
  ∧ refreshCookieInvariant (githubCallbackGET secret now ex pr up code).1 :=
  ⟨loginPOST_refresh_cookie_invariant secret now f cmp b,
   registerPOST_refresh_cookie_invariant secret now f hash create b,
   testLoginPOST_refresh_cookie_invariant secret now isProduction b,
   oauthLoginGET_refresh_cookie_invariant secret now ex pr up code,
   githubCallbackGET_refresh_cookie_invariant secret now ex pr up code⟩

/-- Exchange outcomes the callbacks treat as a failed token exchange:
the remote call throws, returns a non-success status, or its JSON lacks a
usable `access_token` field. -/
def exchangeFailed : ExchangeResult → Bool
  | .netError => true
  | .httpError => true
  | .okNoToken => true
  | .okToken t => t = ""

/-- Holds when the response is a redirect whose target is the login page
(possibly with a query string). -/
def redirectsToLogin (r : ApiResponse) : Bool :=
  match r.redirectTo with
  | some p => strStartsWith p "/login"
  | none => false

/-- C9: in both OAuth-callback revisions, a missing or empty `code`
redirects to the login page with no remote call performed; a failed token
exchange redirects without the profile call or the user-store upsert; and
every outcome of the handlers — failure or success — is a redirect with an
empty JSON body, never a JSON error. -/
theorem C9_oauth_callback_failures_redirect (secret : String) (now : Nat)
    (ex : ExchangeResult) (pr : ProfileResult) (up : GitHubUser → User)
    (code : Option String) (c : String) :
    (oauthLoginGET secret now ex pr up none = (redirect302 "/login", [])
     ∧ oauthLoginGET secret now ex pr up (some "") = (redirect302 "/login", [])
     ∧ githubCallbackGET secret now ex pr up none
         = (redirect307 "/login?error=missing_code", [])
     ∧ githubCallbackGET secret now ex pr up (some "")
         = (redirect307 "/login?error=missing_code", []))
  ∧ (exchangeFailed ex = true →
      (CallTag.profile ∉ (oauthLoginGET secret now ex pr up (some c)).2
       ∧ CallTag.upsert ∉ (oauthLoginGET secret now ex pr up (some c)).2
       ∧ redirectsToLogin (oauthLoginGET secret now ex pr up (some c)).1 = true)
      ∧ (CallTag.profile ∉ (githubCallbackGET secret now ex pr up (some c)).2
       ∧ CallTag.upsert ∉ (githubCallbackGET secret now ex pr up (some c)).2
       ∧ redirectsToLogin (githubCallbackGET secret now ex pr up (some c)).1 = true))
  ∧ ((oauthLoginGET secret now ex pr up code).1.redirectTo.isSome = true
     ∧ (oauthLoginGET secret now ex pr up code).1.body = []
     ∧ (githubCallbackGET secret now ex pr up code).1.redirectTo.isSome = true
     ∧ (githubCallbackGET secret now ex pr up code).1.body = []) := by
  refine ⟨⟨rfl, rfl, rfl, rfl⟩, ?_, ?_⟩
  · intro h
    refine ⟨?_, ?_⟩ <;>
    · simp only [oauthLoginGET, githubCallbackGET]
      rcases ex with _ | _ | _ | t
      · split <;> simp [redirectsToLogin, redirect302, redirect307] <;> decide
      · split <;> simp [redirectsToLogin, redirect302, redirect307] <;> decide
      · split <;> simp [redirectsToLogin, redirect302, redirect307] <;> decide
      · have ht : t = "" := by simpa [exchangeFailed] using h
        subst ht
        split <;> simp [redirectsToLogin, redirect302, redirect307] <;> decide
  · rcases code with _ | c0
    · simp [oauthLoginGET, githubCallbackGET, redirect302, redirect307]
    · simp only [oauthLoginGET, githubCallbackGET]
      repeat' split
      all_goals simp [redirect302, redirect307]

/-- Witness for C9: a concrete failed exchange (`httpError`) with a
nonempty code. -/
theorem C9_oauth_callback_failures_witness :
    CallTag.profile ∉
      (oauthLoginGET "s" 0 .httpError (.ok ⟨1, "l", none, none, "a"⟩)
        (fun _ => { id := "u", email := "e", name := none, passwordHash := none })
        (some "abc")).2
  ∧ redirectsToLogin
      (githubCallbackGET "s" 0 .httpError (.ok ⟨1, "l", none, none, "a"⟩)
        (fun _ => { id := "u", email := "e", name := none, passwordHash := none })
        (some "abc")).1 = true :=
  have h := C9_oauth_callback_failures_redirect "s" 0 .httpError
    (.ok ⟨1, "l", none, none, "a"⟩)
    (fun _ => { id := "u", email := "e", name := none, passwordHash := none })
    (some "abc") "abc"
  ⟨(h.2.1 (by decide)).1.1, (h.2.1 (by decide)).2.2.2⟩

end FeatureMap
